import Mathlib

/-!
Shallow embedding of the baldguard expression language
(src/baldguard-language/src/evaluation.rs, src/baldguard-language/src/tree.rs)
and of the typed-setter protocol generated by the derive macros
(src/baldguard-macros/src/lib.rs), together with theorems settling the
frozen claims about the specification.

Machine integers (Rust i64) are modelled as Lean Int values with an explicit
two's-complement wrap applied wherever the Rust code performs i64 arithmetic,
matching release-build (wrapping) semantics.
-/

namespace Baldguard

/-- Two's-complement wrap of an integer into the i64 range, i.e. the value a
Rust i64 arithmetic operation produces in release builds. -/
def wrap64 (x : Int) : Int := (x + 2 ^ 63) % 2 ^ 64 - 2 ^ 63

/-- Embedding of enum Value (evaluation.rs lines 6-12): Int(i64), Str(String),
Bool(bool), Empty. -/
inductive Value where
  | Int (value : Int)
  | Str (value : String)
  | Bool (value : Bool)
  | Empty
deriving DecidableEq

/-- Embedding of Value::type_str (evaluation.rs lines 15-22). -/
def Value.type_str : Value → String
  | .Int _ => "int"
  | .Str _ => "str"
  | .Bool _ => "bool"
  | .Empty => "empty"

/-- Embedding of enum ValueError (evaluation.rs lines 47-65).  The first four
constructors are exactly the variants of the source enum.  The fifth, Other,
is modelled from the spec: the derive macro in baldguard-macros calls
ValueError::new_other, but the Other variant itself is absent from the
evaluation source under src/; per the spec it carries a plain message string
(used for the typed-setter type-mismatch and cannot-be-empty errors). -/
inductive ValueError where
  | BinaryOp (left : Value) (operator : String) (right : Value)
  | UnaryOp (value : Value) (operator : String)
  | DivisionByZero (value : Value)
  | InvalidRegex (regex : String) (message : String)
  | Other (message : String)
deriving DecidableEq

/-- ValueResult = Result of Value, ValueError (evaluation.rs line 115). -/
abbrev ValueResult := Except ValueError Value

instance : DecidableEq ValueResult := fun a b =>
  match a, b with
  | .ok x, .ok y => decidable_of_iff (x = y) (by constructor <;> intro h <;> simp_all)
  | .error x, .error y => decidable_of_iff (x = y) (by constructor <;> intro h <;> simp_all)
  | .ok _, .error _ => .isFalse (by simp)
  | .error _, .ok _ => .isFalse (by simp)

/-- Embedding of Value::not (evaluation.rs lines 118-123). -/
def Value.not : Value → ValueResult
  | .Bool value => .ok (.Bool (!value))
  | v => .error (.UnaryOp v "not")

/-- Embedding of Value::and (evaluation.rs lines 125-133). -/
def Value.and : Value → Value → ValueResult
  | .Bool l, .Bool r => .ok (.Bool (l && r))
  | l, r => .error (.BinaryOp l "and" r)

/-- Embedding of Value::nand (evaluation.rs lines 135-143). -/
def Value.nand : Value → Value → ValueResult
  | .Bool l, .Bool r => .ok (.Bool (!(l && r)))
  | l, r => .error (.BinaryOp l "nand" r)

/-- Embedding of Value::or (evaluation.rs lines 145-153). -/
def Value.or : Value → Value → ValueResult
  | .Bool l, .Bool r => .ok (.Bool (l || r))
  | l, r => .error (.BinaryOp l "or" r)

/-- Embedding of Value::nor (evaluation.rs lines 155-163). -/
def Value.nor : Value → Value → ValueResult
  | .Bool l, .Bool r => .ok (.Bool (!(l || r)))
  | l, r => .error (.BinaryOp l "nor" r)

/-- Embedding of Value::xor (evaluation.rs lines 165-173). -/
def Value.xor : Value → Value → ValueResult
  | .Bool l, .Bool r => .ok (.Bool (Bool.xor l r))
  | l, r => .error (.BinaryOp l "xor" r)

/-- Embedding of Value::equal (evaluation.rs lines 175-197): same-variant
comparison for Int, Str, Bool; any operand against Empty compares by
emptiness; remaining cross-variant pairs are BinaryOp errors. -/
def Value.equal : Value → Value → ValueResult
  | .Int l, .Int r => .ok (.Bool (l == r))
  | .Int _, .Empty => .ok (.Bool false)
  | .Int l, r => .error (.BinaryOp (.Int l) "=" r)
  | .Str l, .Str r => .ok (.Bool (l == r))
  | .Str _, .Empty => .ok (.Bool false)
  | .Str l, r => .error (.BinaryOp (.Str l) "=" r)
  | .Bool l, .Bool r => .ok (.Bool (l == r))
  | .Bool _, .Empty => .ok (.Bool false)
  | .Bool l, r => .error (.BinaryOp (.Bool l) "=" r)
  | .Empty, .Empty => .ok (.Bool true)
  | .Empty, _ => .ok (.Bool false)

/-- Embedding of Value::not_equal (evaluation.rs lines 199-221). -/
def Value.not_equal : Value → Value → ValueResult
  | .Int l, .Int r => .ok (.Bool (l != r))
  | .Int _, .Empty => .ok (.Bool true)
  | .Int l, r => .error (.BinaryOp (.Int l) "!=" r)
  | .Str l, .Str r => .ok (.Bool (l != r))
  | .Str _, .Empty => .ok (.Bool true)
  | .Str l, r => .error (.BinaryOp (.Str l) "!=" r)
  | .Bool l, .Bool r => .ok (.Bool (l != r))
  | .Bool _, .Empty => .ok (.Bool true)
  | .Bool l, r => .error (.BinaryOp (.Bool l) "!=" r)
  | .Empty, .Empty => .ok (.Bool false)
  | .Empty, _ => .ok (.Bool true)

/-- Embedding of Value::plus (evaluation.rs lines 223-239): i64 addition on
Int operands (wrapping in release builds, hence wrap64 here), concatenation
on Str operands, BinaryOp error otherwise. -/
def Value.plus : Value → Value → ValueResult
  | .Int l, .Int r => .ok (.Int (wrap64 (l + r)))
  | .Int l, r => .error (.BinaryOp (.Int l) "+" r)
  | .Str l, .Str r => .ok (.Str (l ++ r))
  | .Str l, r => .error (.BinaryOp (.Str l) "+" r)
  | l, r => .error (.BinaryOp l "+" r)

/-- Embedding of Value::unary_plus (evaluation.rs lines 241-246). -/
def Value.unary_plus : Value → ValueResult
  | .Int value => .ok (.Int value)
  | v => .error (.UnaryOp v "+")

/-- Embedding of Value::minus (evaluation.rs lines 248-256). -/
def Value.minus : Value → Value → ValueResult
  | .Int l, .Int r => .ok (.Int (wrap64 (l - r)))
  | .Int l, r => .error (.BinaryOp (.Int l) "-" r)
  | l, r => .error (.BinaryOp l "-" r)

/-- Embedding of Value::unary_minus (evaluation.rs lines 258-263). -/
def Value.unary_minus : Value → ValueResult
  | .Int value => .ok (.Int (wrap64 (-value)))
  | v => .error (.UnaryOp v "-")

/-- Embedding of Value::multiply (evaluation.rs lines 265-273). -/
def Value.multiply : Value → Value → ValueResult
  | .Int l, .Int r => .ok (.Int (wrap64 (l * r)))
  | .Int l, r => .error (.BinaryOp (.Int l) "*" r)
  | l, r => .error (.BinaryOp l "*" r)

/-- Embedding of Value::divide (evaluation.rs lines 275-283).  Note: the
source body of divide computes l - r on Int operands (not l / r), labels its
errors with the "-" operator string, and never constructs DivisionByZero;
this embedding reproduces that behaviour exactly. -/
def Value.divide : Value → Value → ValueResult
  | .Int l, .Int r => .ok (.Int (wrap64 (l - r)))
  | .Int l, r => .error (.BinaryOp (.Int l) "-" r)
  | l, r => .error (.BinaryOp l "-" r)

/-- Modelled from the spec: an atom of a compiled regular-expression pattern.
Value::matches delegates pattern compilation and matching to the external
regex crate, which is not part of this repository; the spec states that the
right operand is compiled as a regex pattern and tested for a match anywhere
in the subject, and that an unbalanced bracket such as the pattern consisting
of a single opening square bracket fails to compile.  This model supports
literal characters, the any-character dot, and bracketed character classes,
which is enough to exhibit both behaviours. -/
inductive RAtom where
  | rchar (c : Char)
  | rdot
  | rclass (cs : List Char)
deriving DecidableEq

/-- Modelled from the spec: scan the body of a bracketed character class up
to its closing bracket; fails when the bracket is unbalanced. -/
def scanClass : List Char → Option (List Char × List Char)
  | [] => none
  | c :: rest =>
      if c = ']' then some ([], rest)
      else
        match scanClass rest with
        | some (cs, rem) => some (c :: cs, rem)
        | none => none

/-- Modelled from the spec: compile a pattern (as a character list) into a
sequence of atoms, with a fuel argument bounding the recursion depth; each
step consumes at least one character, so fuel equal to the pattern length
always suffices and the out-of-fuel branch is unreachable from regexParse. -/
def regexParseFuel : Nat → List Char → Option (List RAtom)
  | _, [] => some []
  | 0, _ :: _ => none
  | fuel + 1, c :: rest =>
      if c = '.' then (regexParseFuel fuel rest).map (fun as => RAtom.rdot :: as)
      else if c = '[' then
        match scanClass rest with
        | some (cs, rem) => (regexParseFuel fuel rem).map (fun as => RAtom.rclass cs :: as)
        | none => none
      else (regexParseFuel fuel rest).map (fun as => RAtom.rchar c :: as)

/-- Modelled from the spec: compile a pattern string (as a character list)
into a sequence of atoms; returns none when the pattern is invalid. -/
def regexParse (l : List Char) : Option (List RAtom) := regexParseFuel l.length l

/-- Modelled from the spec: whether a single pattern atom matches a
character. -/
def atomMatches : RAtom → Char → Bool
  | .rchar a, c => a = c
  | .rdot, _ => true
  | .rclass cs, c => cs.contains c

/-- Modelled from the spec: whether the atom sequence matches at the front of
the character list. -/
def matchFront : List RAtom → List Char → Bool
  | [], _ => true
  | _ :: _, [] => false
  | a :: as, c :: cs => atomMatches a c && matchFront as cs

/-- Modelled from the spec: whether the atom sequence matches anywhere in the
subject, i.e. at the front of some suffix. -/
def matchSomewhere (as : List RAtom) : List Char → Bool
  | [] => matchFront as []
  | c :: cs => matchFront as (c :: cs) || matchSomewhere as cs

/-- Embedding of Value::matches (evaluation.rs lines 285-304): on Str
operands the left value is the subject and the right value is compiled as a
regex pattern (the compilation and anywhere-match semantics are modelled
from the spec, see regexParse); a failed compilation is an InvalidRegex
error carrying the pattern text, and any non-Str operand pair is a BinaryOp
error. -/
def Value.matches : Value → Value → ValueResult
  | .Str l, .Str r =>
      match regexParse r.toList with
      | some atoms => .ok (.Bool (matchSomewhere atoms l.toList))
      | none => .error (.InvalidRegex r ("error parsing regex " ++ r))
  | .Str l, r => .error (.BinaryOp (.Str l) "matches" r)
  | l, r => .error (.BinaryOp l "matches" r)

/-- Remove every entry with the given key; helper expressing the
one-entry-per-key invariant of the HashMap backing Variables. -/
def eraseKey (name : String) : List (String × Value) → List (String × Value)
  | [] => []
  | (k, v) :: rest =>
      if k = name then eraseKey name rest else (k, v) :: eraseKey name rest

/-- Embedding of struct Variables (evaluation.rs lines 307-310): a map from
String to Value, modelled as an association list with at most one entry per
key (HashMap insert replaces any existing entry). -/
structure Variables where
  values : List (String × Value)
deriving DecidableEq

/-- Embedding of Variables::new (evaluation.rs lines 317-321). -/
def Variables.new : Variables := ⟨[]⟩

/-- Embedding of Variables::put (evaluation.rs lines 323-325): HashMap
insert, replacing any existing entry for the key. -/
def Variables.put (v : Variables) (name : String) (value : Value) : Variables :=
  ⟨(name, value) :: eraseKey name v.values⟩

/-- Embedding of Variables::get (evaluation.rs lines 327-329). -/
def Variables.get (v : Variables) (name : String) : Option Value :=
  (v.values.find? (fun p => p.1 = name)).map (fun p => p.2)

/-- Modelled from the spec: Variables::remove is called from the session code
(baldguard/src/session.rs) but its definition is absent from the evaluation
source under src/.  Per the spec, remove(name) returns true iff a binding
existed and was removed.  The Rust method mutates the environment in place;
this model returns the flag together with the updated environment. -/
def Variables.remove (v : Variables) (name : String) : Bool × Variables :=
  if (v.get name).isSome then (true, ⟨eraseKey name v.values⟩) else (false, v)

/-- Embedding of enum Operator (tree.rs lines 4-18). -/
inductive Operator where
  | Not | And | Nand | Or | Nor | Xor | Equal | NotEqual
  | Plus | Minus | Multiply | Divide | Matches
deriving DecidableEq

/-- Embedding of enum Literal (tree.rs lines 21-26). -/
inductive Literal where
  | Int (value : Int)
  | Str (value : String)
  | Bool (value : Bool)
  | Empty
deriving DecidableEq

/-- Embedding of From of Literal for Value (evaluation.rs lines 25-34). -/
def Value.fromLiteral : Literal → Value
  | .Int value => .Int value
  | .Str value => .Str value
  | .Bool value => .Bool value
  | .Empty => .Empty

/-- Embedding of enum Expression (tree.rs lines 29-41). -/
inductive Expression where
  | Identifier (name : String)
  | Literal (lit : Baldguard.Literal)
  | BinaryOp (left : Expression) (operator : Operator) (right : Expression)
  | UnaryOp (expression : Expression) (operator : Operator)
deriving DecidableEq

/-- Embedding of enum EvaluationError (evaluation.rs lines 517-520); the
misspelt constructor name UndeclaredIndentifier is the source's own. -/
inductive EvaluationError where
  | UndeclaredIndentifier (identifier : String)
  | ValueError (e : Baldguard.ValueError)
deriving DecidableEq

/-- Outcome of running the evaluator: an Ok value, an Err, or a Rust panic
(the evaluator panics on an operator token in the wrong arity position). -/
inductive EvalOutcome where
  | ok (value : Value)
  | error (e : EvaluationError)
  | panicked (message : String)
deriving DecidableEq

/-- Lift a ValueResult into an evaluator outcome, wrapping operator errors
into EvaluationError as the From impl (evaluation.rs lines 533-537) does. -/
def liftVR : ValueResult → EvalOutcome
  | .ok v => .ok v
  | .error e => .error (.ValueError e)

/-- Embedding of fn evaluate (evaluation.rs lines 541-586).  Identifier looks
up the environment and fails with UndeclaredIndentifier when absent; Literal
converts to a Value; BinaryOp evaluates the left operand and then the right
operand unconditionally before dispatching on the operator (the source binds
both with the question-mark operator ahead of the match, so errors in either
operand propagate and there is no short-circuiting); UnaryOp evaluates its
operand then dispatches.  Operator tokens in the wrong arity position hit
the source's panic branches. -/
def evaluate : Expression → Variables → EvalOutcome
  | .Identifier identifier, v =>
      match v.get identifier with
      | some value => .ok value
      | none => .error (.UndeclaredIndentifier identifier)
  | .Literal lit, _ => .ok (Value.fromLiteral lit)
  | .BinaryOp left operator right, v =>
      match evaluate left v with
      | .ok l =>
          match evaluate right v with
          | .ok r =>
              match operator with
              | .And => liftVR (l.and r)
              | .Nand => liftVR (l.nand r)
              | .Or => liftVR (l.or r)
              | .Nor => liftVR (l.nor r)
              | .Xor => liftVR (l.xor r)
              | .Equal => liftVR (l.equal r)
              | .NotEqual => liftVR (l.not_equal r)
              | .Plus => liftVR (l.plus r)
              | .Minus => liftVR (l.minus r)
              | .Multiply => liftVR (l.multiply r)
              | .Divide => liftVR (l.divide r)
              | .Matches => liftVR (l.matches r)
              | .Not => .panicked "invalid binary operation"
          | .error e => .error e
          | .panicked m => .panicked m
      | .error e => .error e
      | .panicked m => .panicked m
  | .UnaryOp expression operator, v =>
      match evaluate expression v with
      | .ok value =>
          match operator with
          | .Not => liftVR value.not
          | .Plus => liftVR value.unary_plus
          | .Minus => liftVR value.unary_minus
          | _ => .panicked "invalid unary operation"
      | .error e => .error e
      | .panicked m => .panicked m

/-- Model of the teloxide User data reached by From of Message for Variables
(evaluation.rs lines 416-424): id is a u64, is_bot and is_premium are bools,
username is optional. -/
structure User where
  id : Nat
  is_bot : Bool
  username : Option String
  is_premium : Bool
deriving DecidableEq

/-- Model of teloxide MessageOrigin as destructured by the conversion
(evaluation.rs lines 429-472): the four variants with the fields the
conversion reads. -/
inductive MessageOrigin where
  | User (sender_user : Baldguard.User)
  | HiddenUser (sender_user_name : String)
  | Chat (sender_chat_id : Int) (author_signature : Option String)
  | Channel (chat_id : Int) (message_id : Int) (author_signature : Option String)
deriving DecidableEq

/-- Model of the teloxide Message surface read by From of Message for
Variables (evaluation.rs lines 357-515): the sender, the forward origin, the
text, presence of each attachment kind, and the caption.  The field from_
carries a trailing underscore because from is a Lean keyword. -/
structure Message where
  from_ : Option User
  forward_origin : Option MessageOrigin
  text : Option String
  audio : Option Unit
  document : Option Unit
  animation : Option Unit
  game : Option Unit
  photo : Option Unit
  sticker : Option Unit
  story : Option Unit
  video : Option Unit
  voice : Option Unit
  caption : Option String
deriving DecidableEq

/-- The unconditional prelude of From of Message for Variables
(evaluation.rs lines 382-414): default bindings inserted before any of the
message fields are inspected. -/
def baseVars : Variables :=
  ((((((((((((((((((((((((((((Variables.new.put
    "has_from" (.Bool false)).put
    "from_id" .Empty).put
    "from_is_bot" .Empty).put
    "from_username" .Empty).put
    "from_is_premium" .Empty).put
    "has_origin" (.Bool false)).put
    "origin_type" .Empty).put
    "origin_user_id" .Empty).put
    "origin_user_bot" .Empty).put
    "origin_user_username" .Empty).put
    "origin_hidden_user_username" .Empty).put
    "origin_chat_id" .Empty).put
    "origin_chat_author_signature" .Empty).put
    "origin_channel_id" .Empty).put
    "origin_channel_message_id" .Empty).put
    "origin_channel_author_signature" .Empty).put
    "has_text" (.Bool false)).put
    "text" .Empty).put
    "has_audio" .Empty).put
    "has_document" .Empty).put
    "has_animation" .Empty).put
    "has_game" .Empty).put
    "has_photo" .Empty).put
    "has_sticker" .Empty).put
    "has_story" .Empty).put
    "has_video" .Empty).put
    "has_voice" .Empty).put
    "has_caption" (.Bool false)).put
    "caption" .Empty

/-- The sender block of the conversion (evaluation.rs lines 416-424). -/
def applyFrom (msg : Message) (r : Variables) : Variables :=
  match msg.from_ with
  | some f =>
      let r := r.put "has_from" (.Bool true)
      let r := r.put "from_id" (.Int (wrap64 f.id))
      let r := r.put "from_is_bot" (.Bool f.is_bot)
      let r :=
        match f.username with
        | some username => r.put "from_username" (.Str username)
        | none => r
      r.put "from_is_premium" (.Bool f.is_premium)
  | none => r

/-- The forward-origin block of the conversion (evaluation.rs lines
426-473). -/
def applyOrigin (msg : Message) (r : Variables) : Variables :=
  match msg.forward_origin with
  | some origin =>
      let r := r.put "has_origin" (.Bool true)
      match origin with
      | .User sender_user =>
          let r := r.put "origin_type" (.Str "user")
          let r := r.put "origin_user_id" (.Int (wrap64 sender_user.id))
          let r := r.put "origin_user_bot" (.Bool sender_user.is_bot)
          match sender_user.username with
          | some username => r.put "origin_user_username" (.Str username)
          | none => r
      | .HiddenUser sender_user_name =>
          let r := r.put "origin_type" (.Str "hidden_user")
          r.put "origin_hidden_user_username" (.Str sender_user_name)
      | .Chat sender_chat_id author_signature =>
          let r := r.put "origin_type" (.Str "chat")
          let r := r.put "origin_chat_id" (.Int sender_chat_id)
          match author_signature with
          | some signature => r.put "origin_chat_author_signature" (.Str signature)
          | none => r
      | .Channel chat_id message_id author_signature =>
          let r := r.put "origin_type" (.Str "channel")
          let r := r.put "origin_channel_id" (.Int chat_id)
          let r := r.put "origin_channel_message_id" (.Int message_id)
          match author_signature with
          | some signature => r.put "origin_channel_author_signature" (.Str signature)
          | none => r
  | none => r

/-- The text block of the conversion (evaluation.rs lines 475-478). -/
def applyText (msg : Message) (r : Variables) : Variables :=
  match msg.text with
  | some text => (r.put "has_text" (.Bool true)).put "text" (.Str text)
  | none => r

/-- One attachment-presence block of the conversion (evaluation.rs lines
480-506): insert Bool true under the key when the attachment is present,
leave the environment unchanged otherwise. -/
def applyFlag (present : Bool) (key : String) (r : Variables) : Variables :=
  if present then r.put key (.Bool true) else r

/-- The caption block of the conversion (evaluation.rs lines 508-511). -/
def applyCaption (msg : Message) (r : Variables) : Variables :=
  match msg.caption with
  | some caption => (r.put "has_caption" (.Bool true)).put "caption" (.Str caption)
  | none => r

/-- Embedding of From of Message for Variables (evaluation.rs lines
357-515), as the sequential composition of the blocks above in source
order. -/
def messageVariables (msg : Message) : Variables :=
  applyCaption msg
    (applyFlag msg.voice.isSome "has_voice"
      (applyFlag msg.video.isSome "has_video"
        (applyFlag msg.story.isSome "has_story"
          (applyFlag msg.sticker.isSome "has_sticker"
            (applyFlag msg.photo.isSome "has_photo"
              (applyFlag msg.game.isSome "has_game"
                (applyFlag msg.animation.isSome "has_animation"
                  (applyFlag msg.document.isSome "has_document"
                    (applyFlag msg.audio.isSome "has_audio"
                      (applyText msg
                        (applyOrigin msg
                          (applyFrom msg baseVars))))))))))))

/-- Embedding of enum FieldType (baldguard-macros lib.rs lines 5-9): the
three field types the derive macros accept. -/
inductive FieldType where
  | Int | Str | Bool
deriving DecidableEq

/-- The needed_type string the generated setter uses for a field type
(baldguard-macros lib.rs lines 166-185). -/
def FieldType.needed_type : FieldType → String
  | .Int => "int"
  | .Str => "str"
  | .Bool => "bool"

/-- Whether a Value is the correct_case for a field type (baldguard-macros
lib.rs lines 166-185): the generated match arm accepts exactly the Value
variant of the declared type. -/
def valueHasType : Value → FieldType → Bool
  | .Int _, .Int => true
  | .Str _, .Str => true
  | .Bool _, .Bool => true
  | _, _ => false

/-- Embedding of struct Field (baldguard-macros lib.rs lines 11-15): name,
declared type, and whether the Rust field is an Option (nullable). -/
structure FieldSpec where
  name : String
  ty : FieldType
  optional : Bool
deriving DecidableEq

/-- State of one record field: some value when set, none when a nullable
field holds Rust None. -/
abbrev FieldState := Option Value

/-- The per-field assignment arm generated by SetFromAssignment
(baldguard-macros lib.rs lines 187-224): the correct_case stores the value;
Empty clears a nullable field to None but is an error naming the field for a
non-nullable one; any other variant is an Other error naming the field and
the needed type (the message text, including its misspelling, is the
macro's). -/
def setField (f : FieldSpec) (value : Value) : Except EvaluationError FieldState :=
  if valueHasType value f.ty then .ok (some value)
  else
    match value with
    | .Empty =>
        if f.optional then .ok none
        else .error (.ValueError (.Other ("variable " ++ f.name ++ " cannot be empty")))
    | _ =>
        .error (.ValueError (.Other
          ("variable " ++ f.name ++ " shoud be of type " ++ f.ty.needed_type)))

/-- The identifier dispatch generated by SetFromAssignment (baldguard-macros
lib.rs lines 226-255): the match arms are emitted one per field in
declaration order, and the fallback arm returns UndeclaredIndentifier. -/
def setInFields (identifier : String) (value : Value) :
    List (FieldSpec × FieldState) → Except EvaluationError (List (FieldSpec × FieldState))
  | [] => .error (.UndeclaredIndentifier identifier)
  | (f, cur) :: rest =>
      if f.name = identifier then
        match setField f value with
        | .ok newState => .ok ((f, newState) :: rest)
        | .error e => .error e
      else
        match setInFields identifier value rest with
        | .ok rest2 => .ok ((f, cur) :: rest2)
        | .error e => .error e

/-- Embedding of struct Assignment (tree.rs lines 44-47). -/
structure Assignment where
  identifier : String
  expression : Expression
deriving DecidableEq

/-- Outcome of the generated set_from_assignment: the updated record fields,
an error, or a propagated evaluator panic. -/
inductive SetOutcome where
  | ok (fields : List (FieldSpec × FieldState))
  | error (e : EvaluationError)
  | panicked (message : String)
deriving DecidableEq

/-- Embedding of the set_from_assignment implementation generated by the
SetFromAssignment derive (baldguard-macros lib.rs lines 235-259): evaluate
the assignment expression against a fresh empty Variables, propagate any
evaluation error, then dispatch on the identifier over the record's fields
in declaration order. -/
def set_from_assignment (fields : List (FieldSpec × FieldState))
    (assignment : Assignment) : SetOutcome :=
  match evaluate assignment.expression Variables.new with
  | .ok value =>
      match setInFields assignment.identifier value fields with
      | .ok fields2 => .ok fields2
      | .error e => .error e
  | .error e => .error e
  | .panicked m => .panicked m

section Lemmas

theorem find?_eraseKey_ne {k name : String} (h : ¬(k = name)) (l : List (String × Value)) :
    (eraseKey name l).find? (fun p => p.1 = k) = l.find? (fun p => p.1 = k) := by
  have hnk : ¬(name = k) := fun hx => h hx.symm
  induction l with
  | nil => rfl
  | cons a rest ih =>
      cases a with
      | mk ak av =>
          by_cases hk : ak = name
          · simp [eraseKey, hk, List.find?, hnk, ih]
          · by_cases he : ak = k
            · simp [eraseKey, hk, List.find?, he, h]
            · simp [eraseKey, hk, List.find?, he, ih]

theorem get_put_same (v : Variables) (n : String) (x : Value) :
    (v.put n x).get n = some x := by
  simp [Variables.put, Variables.get, List.find?]

theorem get_put_ne {k n : String} (h : ¬(k = n)) (v : Variables) (x : Value) :
    (v.put n x).get k = v.get k := by
  have hn : ¬(n = k) := fun hx => h hx.symm
  simp [Variables.put, Variables.get, List.find?, hn, find?_eraseKey_ne h]

theorem applyFlag_get_ne {k key : String} (h : ¬(k = key)) (b : Bool) (r : Variables) :
    (applyFlag b key r).get k = r.get k := by
  cases b <;> simp [applyFlag, get_put_ne h]

theorem applyFlag_get_same (b : Bool) (key : String) (r : Variables) :
    (applyFlag b key r).get key = if b then some (.Bool true) else r.get key := by
  cases b <;> simp [applyFlag, get_put_same]

theorem applyFrom_get_ne {k : String} (msg : Message) (r : Variables)
    (h1 : ¬(k = "has_from")) (h2 : ¬(k = "from_id")) (h3 : ¬(k = "from_is_bot"))
    (h4 : ¬(k = "from_username")) (h5 : ¬(k = "from_is_premium")) :
    (applyFrom msg r).get k = r.get k := by
  cases hf : msg.from_ with
  | none => simp [applyFrom, hf]
  | some f =>
      cases hu : f.username <;>
        simp [applyFrom, hf, hu, get_put_ne h1, get_put_ne h2, get_put_ne h3,
          get_put_ne h4, get_put_ne h5]

theorem applyOrigin_get_ne {k : String} (msg : Message) (r : Variables)
    (h1 : ¬(k = "has_origin")) (h2 : ¬(k = "origin_type"))
    (h3 : ¬(k = "origin_user_id")) (h4 : ¬(k = "origin_user_bot"))
    (h5 : ¬(k = "origin_user_username")) (h6 : ¬(k = "origin_hidden_user_username"))
    (h7 : ¬(k = "origin_chat_id")) (h8 : ¬(k = "origin_chat_author_signature"))
    (h9 : ¬(k = "origin_channel_id")) (h10 : ¬(k = "origin_channel_message_id"))
    (h11 : ¬(k = "origin_channel_author_signature")) :
    (applyOrigin msg r).get k = r.get k := by
  cases ho : msg.forward_origin with
  | none => simp [applyOrigin, ho]
  | some origin =>
      cases origin with
      | User sender_user =>
          cases hu : sender_user.username <;>
            simp [applyOrigin, ho, hu, get_put_ne h1, get_put_ne h2, get_put_ne h3,
              get_put_ne h4, get_put_ne h5]
      | HiddenUser sender_user_name =>
          simp [applyOrigin, ho, get_put_ne h1, get_put_ne h2, get_put_ne h6]
      | Chat sender_chat_id author_signature =>
          cases author_signature <;>
            simp [applyOrigin, ho, get_put_ne h1, get_put_ne h2, get_put_ne h7,
              get_put_ne h8]
      | Channel chat_id message_id author_signature =>
          cases author_signature <;>
            simp [applyOrigin, ho, get_put_ne h1, get_put_ne h2, get_put_ne h9,
              get_put_ne h10, get_put_ne h11]

theorem applyText_get_ne {k : String} (msg : Message) (r : Variables)
    (h1 : ¬(k = "has_text")) (h2 : ¬(k = "text")) :
    (applyText msg r).get k = r.get k := by
  cases ht : msg.text <;> simp [applyText, ht, get_put_ne h1, get_put_ne h2]

theorem applyCaption_get_ne {k : String} (msg : Message) (r : Variables)
    (h1 : ¬(k = "has_caption")) (h2 : ¬(k = "caption")) :
    (applyCaption msg r).get k = r.get k := by
  cases hc : msg.caption <;> simp [applyCaption, hc, get_put_ne h1, get_put_ne h2]

theorem applyFrom_get_has_from (msg : Message) (r : Variables) :
    (applyFrom msg r).get "has_from" =
      if msg.from_.isSome then some (.Bool true) else r.get "has_from" := by
  cases hf : msg.from_ with
  | none => simp [applyFrom, hf]
  | some f =>
      cases hu : f.username <;>
        simp [applyFrom, hf, hu, get_put_same, get_put_ne]

theorem applyText_get_has_text (msg : Message) (r : Variables) :
    (applyText msg r).get "has_text" =
      if msg.text.isSome then some (.Bool true) else r.get "has_text" := by
  cases ht : msg.text <;> simp [applyText, ht, get_put_same, get_put_ne]

theorem applyCaption_get_has_caption (msg : Message) (r : Variables) :
    (applyCaption msg r).get "has_caption" =
      if msg.caption.isSome then some (.Bool true) else r.get "has_caption" := by
  cases hc : msg.caption <;> simp [applyCaption, hc, get_put_same, get_put_ne]

theorem get_has_audio (msg : Message) :
    (messageVariables msg).get "has_audio" =
      some (if msg.audio.isSome then .Bool true else .Empty) := by
  cases ha : msg.audio <;>
    simp [messageVariables, ha, applyCaption_get_ne, applyFlag_get_ne, applyFlag_get_same,
      applyText_get_ne, applyOrigin_get_ne, applyFrom_get_ne] <;>
    decide

theorem get_has_document (msg : Message) :
    (messageVariables msg).get "has_document" =
      some (if msg.document.isSome then .Bool true else .Empty) := by
  cases ha : msg.document <;>
    simp [messageVariables, ha, applyCaption_get_ne, applyFlag_get_ne, applyFlag_get_same,
      applyText_get_ne, applyOrigin_get_ne, applyFrom_get_ne] <;>
    decide

theorem get_has_animation (msg : Message) :
    (messageVariables msg).get "has_animation" =
      some (if msg.animation.isSome then .Bool true else .Empty) := by
  cases ha : msg.animation <;>
    simp [messageVariables, ha, applyCaption_get_ne, applyFlag_get_ne, applyFlag_get_same,
      applyText_get_ne, applyOrigin_get_ne, applyFrom_get_ne] <;>
    decide

theorem get_has_game (msg : Message) :
    (messageVariables msg).get "has_game" =
      some (if msg.game.isSome then .Bool true else .Empty) := by
  cases ha : msg.game <;>
    simp [messageVariables, ha, applyCaption_get_ne, applyFlag_get_ne, applyFlag_get_same,
      applyText_get_ne, applyOrigin_get_ne, applyFrom_get_ne] <;>
    decide

theorem get_has_photo (msg : Message) :
    (messageVariables msg).get "has_photo" =
      some (if msg.photo.isSome then .Bool true else .Empty) := by
  cases ha : msg.photo <;>
    simp [messageVariables, ha, applyCaption_get_ne, applyFlag_get_ne, applyFlag_get_same,
      applyText_get_ne, applyOrigin_get_ne, applyFrom_get_ne] <;>
    decide

theorem get_has_sticker (msg : Message) :
    (messageVariables msg).get "has_sticker" =
      some (if msg.sticker.isSome then .Bool true else .Empty) := by
  cases ha : msg.sticker <;>
    simp [messageVariables, ha, applyCaption_get_ne, applyFlag_get_ne, applyFlag_get_same,
      applyText_get_ne, applyOrigin_get_ne, applyFrom_get_ne] <;>
    decide

theorem get_has_story (msg : Message) :
    (messageVariables msg).get "has_story" =
      some (if msg.story.isSome then .Bool true else .Empty) := by
  cases ha : msg.story <;>
    simp [messageVariables, ha, applyCaption_get_ne, applyFlag_get_ne, applyFlag_get_same,
      applyText_get_ne, applyOrigin_get_ne, applyFrom_get_ne] <;>
    decide

theorem get_has_video (msg : Message) :
    (messageVariables msg).get "has_video" =
      some (if msg.video.isSome then .Bool true else .Empty) := by
  cases ha : msg.video <;>
    simp [messageVariables, ha, applyCaption_get_ne, applyFlag_get_ne, applyFlag_get_same,
      applyText_get_ne, applyOrigin_get_ne, applyFrom_get_ne] <;>
    decide

theorem get_has_voice (msg : Message) :
    (messageVariables msg).get "has_voice" =
      some (if msg.voice.isSome then .Bool true else .Empty) := by
  cases ha : msg.voice <;>
    simp [messageVariables, ha, applyCaption_get_ne, applyFlag_get_ne, applyFlag_get_same,
      applyText_get_ne, applyOrigin_get_ne, applyFrom_get_ne] <;>
    decide

theorem get_has_from (msg : Message) :
    (messageVariables msg).get "has_from" = some (.Bool msg.from_.isSome) := by
  cases hf : msg.from_ <;>
    simp [messageVariables, hf, applyCaption_get_ne, applyFlag_get_ne,
      applyText_get_ne, applyOrigin_get_ne, applyFrom_get_has_from] <;>
    decide

theorem get_has_text (msg : Message) :
    (messageVariables msg).get "has_text" = some (.Bool msg.text.isSome) := by
  cases ht : msg.text <;>
    simp [messageVariables, ht, applyCaption_get_ne, applyFlag_get_ne,
      applyText_get_has_text, applyOrigin_get_ne, applyFrom_get_ne] <;>
    decide

theorem get_has_caption (msg : Message) :
    (messageVariables msg).get "has_caption" = some (.Bool msg.caption.isSome) := by
  cases hc : msg.caption <;>
    simp [messageVariables, hc, applyCaption_get_has_caption, applyFlag_get_ne,
      applyText_get_ne, applyOrigin_get_ne, applyFrom_get_ne] <;>
    decide

end Lemmas

/-- Replace the state of the first field whose spec carries the given name,
leaving everything else unchanged. -/
def overwriteField (identifier : String) (st : FieldState) :
    List (FieldSpec × FieldState) → List (FieldSpec × FieldState)
  | [] => []
  | (f, cur) :: rest =>
      if f.name = identifier then (f, st) :: rest
      else (f, cur) :: overwriteField identifier st rest

/-- Written from the spec words for the typed-setter protocol, as the
refinement target for the generated set_from_assignment: an identifier
naming no known field fails with UndeclaredIndentifier; a produced Value
whose variant differs from the field declared type fails with an Other error
whose message names the field and the expected type name; a produced Empty
on a non-nullable field fails with an Other error stating the field cannot
be empty; a produced Empty on a nullable field clears the field to null;
otherwise the field is set to the Value. -/
def setFromAssignmentSpec (fields : List (FieldSpec × FieldState))
    (identifier : String) (value : Value) :
    Except EvaluationError (List (FieldSpec × FieldState)) :=
  match fields.find? (fun p => p.1.name = identifier) with
  | none => .error (.UndeclaredIndentifier identifier)
  | some (f, _) =>
      if valueHasType value f.ty then
        .ok (overwriteField identifier (some value) fields)
      else if value = .Empty then
        if f.optional then .ok (overwriteField identifier none fields)
        else .error (.ValueError (.Other ("variable " ++ f.name ++ " cannot be empty")))
      else
        .error (.ValueError (.Other
          ("variable " ++ f.name ++ " shoud be of type " ++ f.ty.needed_type)))

/-- Lift the Except form of the typed-setter specification into the outcome
type of the generated implementation. -/
def liftSet : Except EvaluationError (List (FieldSpec × FieldState)) → SetOutcome
  | .ok fields => .ok fields
  | .error e => .error e

section SetterLemmas

theorem valueHasType_empty (ty : FieldType) : valueHasType .Empty ty = false := by
  cases ty <;> rfl

theorem setInFields_eq_spec (identifier : String) (value : Value)
    (fields : List (FieldSpec × FieldState)) :
    setInFields identifier value fields = setFromAssignmentSpec fields identifier value := by
  induction fields with
  | nil => rfl
  | cons a rest ih =>
      cases a with
      | mk f cur =>
          by_cases hn : f.name = identifier
          · simp only [setInFields, setFromAssignmentSpec, List.find?, hn]
            simp only [decide_True, setField, overwriteField, if_pos hn]
            by_cases hv : valueHasType value f.ty
            · simp [hv]
            · simp only [hv, Bool.false_eq_true, if_false, ite_false]
              cases value with
              | Empty =>
                  by_cases ho : f.optional <;> simp [ho]
              | Int n => simp [valueHasType_empty] at hv ⊢
              | Str s => simp [valueHasType_empty] at hv ⊢
              | Bool b => simp [valueHasType_empty] at hv ⊢
          · simp only [setInFields, setFromAssignmentSpec, List.find?, hn, decide_False,
              overwriteField, if_neg hn, ih]
            cases hrec : (rest.find? fun p => p.1.name = identifier) with
            | none => simp [setFromAssignmentSpec, hrec]
            | some q =>
                cases q with
                | mk g st =>
                    simp only [setFromAssignmentSpec, hrec]
                    by_cases hv : valueHasType value g.ty
                    · simp [hv]
                    · simp only [hv, Bool.false_eq_true, if_false, ite_false]
                      by_cases he : value = .Empty
                      · by_cases ho : g.optional <;> simp [he, ho]
                      · simp [he]

end SetterLemmas

/-- C1: the claim states that Value::divide on Int operands performs
truncating integer division, failing with DivisionByZero on a zero divisor,
and never returns a difference.  The code instead computes the difference of
the operands, returns Ok on a zero divisor, and labels its type errors with
the minus operator; this theorem evaluates the embedded divide at the
failing inputs, exhibiting the divergence. -/
theorem claim_C1 :
    Value.divide (.Int 7) (.Int 2) = .ok (.Int 5) ∧
    ¬(Value.divide (.Int 7) (.Int 2) = .ok (.Int 3)) ∧
    Value.divide (.Int 1) (.Int 0) = .ok (.Int 1) ∧
    (∀ e : ValueError, ¬(Value.divide (.Int 1) (.Int 0) = .error e)) ∧
    Value.divide (.Int 1) (.Bool true) = .error (.BinaryOp (.Int 1) "-" (.Bool true)) := by
  refine ⟨by decide, by decide, by decide, ?_, by decide⟩
  intro e h
  simp [Value.divide] at h

/-- C2 counterexample: the claim states that evaluating
And(Literal(Bool(false)), Identifier("undeclared")) against any Variables
yields Ok(Bool(false)) without evaluating the right operand; against the
empty environment it in fact yields Err(UndeclaredIdentifier), because the
evaluator evaluates both operands before dispatching. -/
theorem claim_C2_counterexample :
    evaluate (.BinaryOp (.Literal (.Bool false)) .And (.Identifier "undeclared"))
        Variables.new = .error (.UndeclaredIndentifier "undeclared") ∧
    ¬(evaluate (.BinaryOp (.Literal (.Bool false)) .And (.Identifier "undeclared"))
        Variables.new = .ok (.Bool false)) := by
  refine ⟨by decide, by decide⟩

/-- C2 amended: the evaluator does not short-circuit: it evaluates both
operands of every binary operation before dispatching on the operator, so
And/Or with a determining left operand still surface errors from the right
operand; when both operands do evaluate to Bools, And, Nand, Or and Nor
yield the expected boolean results. -/
theorem claim_C2 (vars : Variables) (h : vars.get "undeclared" = none) :
    evaluate (.BinaryOp (.Literal (.Bool false)) .And (.Identifier "undeclared")) vars
      = .error (.UndeclaredIndentifier "undeclared") ∧
    evaluate (.BinaryOp (.Literal (.Bool true)) .Or (.Identifier "undeclared")) vars
      = .error (.UndeclaredIndentifier "undeclared") ∧
    (∀ b : Bool,
      evaluate (.BinaryOp (.Literal (.Bool false)) .And (.Literal (.Bool b))) vars
        = .ok (.Bool false) ∧
      evaluate (.BinaryOp (.Literal (.Bool false)) .Nand (.Literal (.Bool b))) vars
        = .ok (.Bool true) ∧
      evaluate (.BinaryOp (.Literal (.Bool true)) .Or (.Literal (.Bool b))) vars
        = .ok (.Bool true) ∧
      evaluate (.BinaryOp (.Literal (.Bool true)) .Nor (.Literal (.Bool b))) vars
        = .ok (.Bool false)) := by
  refine ⟨?_, ?_, ?_⟩
  · simp [evaluate, h, Value.fromLiteral]
  · simp [evaluate, h, Value.fromLiteral]
  · intro b
    cases b <;>
      simp [evaluate, Value.fromLiteral, Value.and, Value.nand, Value.or, Value.nor, liftVR]

/-- C2 witness: the amended theorem applied to the empty environment. -/
theorem claim_C2_witness :
    Variables.new.get "undeclared" = none ∧
    evaluate (.BinaryOp (.Literal (.Bool false)) .And (.Identifier "undeclared"))
        Variables.new = .error (.UndeclaredIndentifier "undeclared") :=
  ⟨rfl, (claim_C2 Variables.new rfl).1⟩

/-- C3 counterexample: the claim states that plus returns the mathematical
sum over the full i64 range, even when it exceeds the representable range;
at the maximum i64 value plus one the i64 addition wraps to the minimum i64
value instead of producing two to the sixty-third power. -/
theorem claim_C3_counterexample :
    Value.plus (.Int (2 ^ 63 - 1)) (.Int 1) = .ok (.Int (-(2 ^ 63))) ∧
    ¬(Value.plus (.Int (2 ^ 63 - 1)) (.Int 1) = .ok (.Int (2 ^ 63))) := by
  refine ⟨by decide, by decide⟩

/-- C3 amended: for i64-range operands, plus on Int operands returns Ok of
the two's-complement wrap of the sum, which equals the mathematical sum
exactly when that sum is itself in the i64 range (in debug builds the
overflowing case would panic instead of wrapping). -/
theorem claim_C3 (a b : Int)
    (ha1 : -(2 ^ 63) ≤ a) (ha2 : a < 2 ^ 63)
    (hb1 : -(2 ^ 63) ≤ b) (hb2 : b < 2 ^ 63) :
    Value.plus (.Int a) (.Int b) = .ok (.Int (wrap64 (a + b))) ∧
    (-(2 ^ 63) ≤ a + b → a + b < 2 ^ 63 → wrap64 (a + b) = a + b) := by
  constructor
  · rfl
  · intro h1 h2
    unfold wrap64
    omega

/-- C3 witness: the amended theorem applied to one plus two. -/
theorem claim_C3_witness :
    (-(2 ^ 63) : Int) ≤ 1 ∧ (1 : Int) < 2 ^ 63 ∧
    Value.plus (.Int 1) (.Int 2) = .ok (.Int (wrap64 (1 + 2))) ∧
    wrap64 (1 + 2) = 1 + 2 :=
  ⟨by decide, by decide,
    (claim_C3 1 2 (by decide) (by decide) (by decide) (by decide)).1,
    (claim_C3 1 2 (by decide) (by decide) (by decide) (by decide)).2
      (by decide) (by decide)⟩

/-- C4: Empty equals Empty, a non-Empty value never equals Empty on either
side, not_equal negates each of these results, and a pair involving Empty is
the only cross-variant operand pair on which equal and not_equal return Ok
rather than a BinaryOp error. -/
theorem claim_C4 :
    Value.equal .Empty .Empty = .ok (.Bool true) ∧
    Value.not_equal .Empty .Empty = .ok (.Bool false) ∧
    (∀ v : Value, ¬(v = .Empty) →
      Value.equal v .Empty = .ok (.Bool false) ∧
      Value.equal .Empty v = .ok (.Bool false) ∧
      Value.not_equal v .Empty = .ok (.Bool true) ∧
      Value.not_equal .Empty v = .ok (.Bool true)) ∧
    (∀ v w : Value, ¬(v.type_str = w.type_str) → ¬(v = .Empty) → ¬(w = .Empty) →
      Value.equal v w = .error (.BinaryOp v "=" w) ∧
      Value.not_equal v w = .error (.BinaryOp v "!=" w)) := by
  refine ⟨rfl, rfl, ?_, ?_⟩
  · intro v hv
    cases v <;> simp_all [Value.equal, Value.not_equal]
  · intro v w hty hv hw
    cases v <;> cases w <;> simp_all [Value.equal, Value.not_equal, Value.type_str]

/-- C4 witness: the quantified parts of the theorem applied to Int zero and
an empty string value. -/
theorem claim_C4_witness :
    ¬((Value.Int 0) = .Empty) ∧
    Value.equal (.Int 0) .Empty = .ok (.Bool false) ∧
    Value.equal (.Int 0) (.Str "") = .error (.BinaryOp (.Int 0) "=" (.Str "")) :=
  ⟨by decide, (claim_C4.2.2.1 (.Int 0) (by decide)).1,
    (claim_C4.2.2.2 (.Int 0) (.Str "") (by decide) (by decide) (by decide)).1⟩

/-- C5: matches on Str operands compiles the right operand as a regex
pattern (modelled from the spec, see regexParse): a compilable pattern
yields Ok of whether it matches anywhere in the subject, an uncompilable
pattern yields InvalidRegex carrying the pattern text, a non-Str operand
pair yields a BinaryOp error; the subject abc matches the pattern a-dot-c
and the single-opening-bracket pattern is invalid. -/
theorem claim_C5 :
    (∀ s p : String, ∀ atoms : List RAtom, regexParse p.toList = some atoms →
      Value.matches (.Str s) (.Str p) = .ok (.Bool (matchSomewhere atoms s.toList))) ∧
    (∀ s p : String, regexParse p.toList = none →
      Value.matches (.Str s) (.Str p)
        = .error (.InvalidRegex p ("error parsing regex " ++ p))) ∧
    (∀ v w : Value, ¬(v.type_str = "str" ∧ w.type_str = "str") →
      Value.matches v w = .error (.BinaryOp v "matches" w)) ∧
    Value.matches (.Str "abc") (.Str "a.c") = .ok (.Bool true) ∧
    Value.matches (.Str "abc") (.Str "[")
      = .error (.InvalidRegex "[" ("error parsing regex " ++ "[")) := by
  refine ⟨?_, ?_, ?_, by decide, by decide⟩
  · intro s p atoms h
    have h2 : regexParse p.data = some atoms := h
    simp [Value.matches, h2]
  · intro s p h
    have h2 : regexParse p.data = none := h
    simp [Value.matches, h2]
  · intro v w h
    cases v <;> cases w <;> simp_all [Value.matches, Value.type_str]

/-- C5 witness: the quantified parts of the theorem applied to concrete
inputs. -/
theorem claim_C5_witness :
    regexParse ("a.c".toList) = some [.rchar 'a', .rdot, .rchar 'c'] ∧
    Value.matches (.Str "abc") (.Str "a.c")
      = .ok (.Bool (matchSomewhere [.rchar 'a', .rdot, .rchar 'c'] ("abc".toList))) ∧
    regexParse ("[".toList) = none ∧
    Value.matches (.Str "xy") (.Str "[")
      = .error (.InvalidRegex "[" ("error parsing regex " ++ "[")) ∧
    ¬((Value.Int 3).type_str = "str" ∧ (Value.Str "a").type_str = "str") ∧
    Value.matches (.Int 3) (.Str "a") = .error (.BinaryOp (.Int 3) "matches" (.Str "a")) :=
  ⟨by decide, claim_C5.1 "abc" "a.c" _ (by decide),
    by decide, claim_C5.2.1 "xy" "[" (by decide),
    by decide, claim_C5.2.2.1 (.Int 3) (.Str "a") (by decide)⟩

/-- C6: plus returns Ok exactly when both operands are Int or both are Str:
Str operands concatenate, Int operands add, and every other pairing,
including Int plus Str, is a BinaryOp error carrying both operands and the
plus operator; there is no implicit coercion. -/
theorem claim_C6 :
    (∀ l r : String, Value.plus (.Str l) (.Str r) = .ok (.Str (l ++ r))) ∧
    (∀ a b : Int, Value.plus (.Int a) (.Int b) = .ok (.Int (wrap64 (a + b)))) ∧
    Value.plus (.Int 1) (.Str "x") = .error (.BinaryOp (.Int 1) "+" (.Str "x")) ∧
    (∀ v w : Value,
      ¬(v.type_str = "int" ∧ w.type_str = "int") →
      ¬(v.type_str = "str" ∧ w.type_str = "str") →
      Value.plus v w = .error (.BinaryOp v "+" w)) := by
  refine ⟨fun l r => rfl, fun a b => rfl, rfl, ?_⟩
  intro v w h1 h2
  cases v <;> cases w <;> simp_all [Value.plus, Value.type_str]

/-- C6 witness: the quantified error part of the theorem applied to a Bool
and an Int operand. -/
theorem claim_C6_witness :
    ¬((Value.Bool true).type_str = "int" ∧ (Value.Int 0).type_str = "int") ∧
    Value.plus (.Bool true) (.Int 0) = .error (.BinaryOp (.Bool true) "+" (.Int 0)) :=
  ⟨by decide, claim_C6.2.2.2 (.Bool true) (.Int 0) (by decide) (by decide)⟩

/-- C7: evaluating an Identifier returns the bound value when a binding
exists and UndeclaredIndentifier when it does not; xor does not
short-circuit, so Xor with a false left literal and an undeclared right
identifier is an UndeclaredIndentifier error rather than an Ok value. -/
theorem claim_C7 :
    (∀ (vars : Variables) (name : String) (value : Value),
      vars.get name = some value → evaluate (.Identifier name) vars = .ok value) ∧
    (∀ (vars : Variables) (name : String),
      vars.get name = none →
        evaluate (.Identifier name) vars = .error (.UndeclaredIndentifier name)) ∧
    (∀ vars : Variables, vars.get "undeclared" = none →
      evaluate (.BinaryOp (.Literal (.Bool false)) .Xor (.Identifier "undeclared")) vars
        = .error (.UndeclaredIndentifier "undeclared")) := by
  refine ⟨?_, ?_, ?_⟩
  · intro vars name value h
    simp [evaluate, h]
  · intro vars name h
    simp [evaluate, h]
  · intro vars h
    simp [evaluate, h, Value.fromLiteral]

/-- C7 witness: the theorem applied to a one-binding environment and to the
empty environment. -/
theorem claim_C7_witness :
    (Variables.new.put "x" (.Int 5)).get "x" = some (.Int 5) ∧
    evaluate (.Identifier "x") (Variables.new.put "x" (.Int 5)) = .ok (.Int 5) ∧
    Variables.new.get "undeclared" = none ∧
    evaluate (.BinaryOp (.Literal (.Bool false)) .Xor (.Identifier "undeclared"))
        Variables.new = .error (.UndeclaredIndentifier "undeclared") :=
  ⟨by decide, claim_C7.1 (Variables.new.put "x" (.Int 5)) "x" (.Int 5) (by decide),
    by decide, claim_C7.2.2 Variables.new (by decide)⟩

/-- C8: whenever the assignment expression evaluates to a Value against the
fresh empty environment the generated setter uses, the generated
set_from_assignment agrees with the typed-setter specification
setFromAssignmentSpec: unknown identifiers fail with UndeclaredIndentifier,
a variant mismatch fails with an Other error naming the field and the
expected type, Empty into a non-nullable field fails with a cannot-be-empty
error, Empty into a nullable field clears it to null, and otherwise the
field is set to the Value. -/
theorem claim_C8 (fields : List (FieldSpec × FieldState)) (assignment : Assignment)
    (value : Value) (h : evaluate assignment.expression Variables.new = .ok value) :
    set_from_assignment fields assignment =
      liftSet (setFromAssignmentSpec fields assignment.identifier value) := by
  simp only [set_from_assignment, h, setInFields_eq_spec]
  cases hs : setFromAssignmentSpec fields assignment.identifier value <;>
    simp [liftSet, hs]

/-- C8 witness: the theorem applied to a record with one nullable Int field
and an assignment of the Empty literal to it. -/
theorem claim_C8_witness :
    evaluate (.Literal .Empty) Variables.new = .ok .Empty ∧
    set_from_assignment [(⟨"opt_num", .Int, true⟩, some (.Int 1))]
        ⟨"opt_num", .Literal .Empty⟩
      = liftSet (setFromAssignmentSpec [(⟨"opt_num", .Int, true⟩, some (.Int 1))]
          "opt_num" .Empty) :=
  ⟨rfl, claim_C8 [(⟨"opt_num", .Int, true⟩, some (.Int 1))]
    ⟨"opt_num", .Literal .Empty⟩ .Empty rfl⟩

/-- C9: from the empty environment, put of x to Int five makes get of x
return that value; the first remove of x returns true and deletes the
binding, after which get returns none and remove returns false while
leaving the environment unchanged, so every subsequent remove also returns
false. -/
theorem claim_C9 :
    (Variables.new.put "x" (.Int 5)).get "x" = some (.Int 5) ∧
    ((Variables.new.put "x" (.Int 5)).remove "x").1 = true ∧
    (((Variables.new.put "x" (.Int 5)).remove "x").2).get "x" = none ∧
    (((Variables.new.put "x" (.Int 5)).remove "x").2).remove "x"
      = (false, ((Variables.new.put "x" (.Int 5)).remove "x").2) := by
  refine ⟨by decide, by decide, by decide, by decide⟩

/-- C10: in the Variables built from a chat message, each of the nine
attachment flags is bound to Bool true when the attachment is present and
to Empty when it is absent, while has_from, has_text and has_caption are
bound to Bool of the presence of the corresponding data (hence default to
Bool false); consequently, for a message with no audio, comparing has_audio
with the Bool false literal evaluates to Ok of Bool false. -/
theorem claim_C10 (msg : Message) :
    ((messageVariables msg).get "has_audio"
        = some (if msg.audio.isSome then .Bool true else .Empty) ∧
      (messageVariables msg).get "has_document"
        = some (if msg.document.isSome then .Bool true else .Empty) ∧
      (messageVariables msg).get "has_animation"
        = some (if msg.animation.isSome then .Bool true else .Empty) ∧
      (messageVariables msg).get "has_game"
        = some (if msg.game.isSome then .Bool true else .Empty) ∧
      (messageVariables msg).get "has_photo"
        = some (if msg.photo.isSome then .Bool true else .Empty) ∧
      (messageVariables msg).get "has_sticker"
        = some (if msg.sticker.isSome then .Bool true else .Empty) ∧
      (messageVariables msg).get "has_story"
        = some (if msg.story.isSome then .Bool true else .Empty) ∧
      (messageVariables msg).get "has_video"
        = some (if msg.video.isSome then .Bool true else .Empty) ∧
      (messageVariables msg).get "has_voice"
        = some (if msg.voice.isSome then .Bool true else .Empty) ∧
      (messageVariables msg).get "has_from" = some (.Bool msg.from_.isSome) ∧
      (messageVariables msg).get "has_text" = some (.Bool msg.text.isSome) ∧
      (messageVariables msg).get "has_caption" = some (.Bool msg.caption.isSome)) ∧
    (msg.audio = none →
      evaluate (.BinaryOp (.Identifier "has_audio") .Equal (.Literal (.Bool false)))
        (messageVariables msg) = .ok (.Bool false)) := by
  refine ⟨⟨get_has_audio msg, get_has_document msg, get_has_animation msg,
    get_has_game msg, get_has_photo msg, get_has_sticker msg, get_has_story msg,
    get_has_video msg, get_has_voice msg, get_has_from msg, get_has_text msg,
    get_has_caption msg⟩, ?_⟩
  intro h
  have hget := get_has_audio msg
  rw [h] at hget
  simp only [Option.isSome_none, Bool.false_eq_true, if_false, ite_false] at hget
  simp [evaluate, hget, Value.fromLiteral, Value.equal, liftVR]

/-- C10 witness: the theorem applied to a message with no sender, origin,
text, attachments or caption. -/
theorem claim_C10_witness :
    (Message.mk none none none none none none none none none none none none none).audio
      = none ∧
    evaluate (.BinaryOp (.Identifier "has_audio") .Equal (.Literal (.Bool false)))
        (messageVariables
          (Message.mk none none none none none none none none none none none none none))
      = .ok (.Bool false) :=
  ⟨rfl, (claim_C10
    (Message.mk none none none none none none none none none none none none none)).2 rfl⟩

end Baldguard
